import Mathlib

/-!
Verification of the PrescriptionValidation zero-knowledge circuit and its
scenario harness.

The circuit (`prescription.circom`) works over the scalar field of the BN128
curve (Groth16 / BN128 pipeline).  Its five checks are embedded below as a
constraint predicate over explicit signal assignments.  The Poseidon hash and
the Groth16 prover/verifier are external consumed capabilities: Poseidon is
kept abstract (an arbitrary function parameter), while the fixed-width
comparator and the proving/verification oracles are modelled from the
specification of their contracts.  The scenario harness (`prove.js`) and the
setup script (`ceremony.js`) are embedded as pure functions of the outcomes
the external pipeline hands them.
-/

/-- Scalar field modulus of the BN128 curve used by the Groth16 pipeline. -/
abbrev bn128r : ℕ := 21888242871839275222246405745257275088548364400416034343698204186575808495617

/-- The circuit field: every signal is an element of the BN128 scalar field. -/
abbrev F : Type := ZMod bn128r

instance : NeZero bn128r := ⟨by norm_num⟩

instance : Fact (1 < bn128r) := ⟨by norm_num⟩

/-- Modelled from the spec: the argument wire of the consumed fixed-width
comparator capability (`LessThan(32)` of the external gadget library, which is
not part of this repository).  `LessThan(n)` feeds `in[0] + 2^n - in[1]` to an
`(n+1)`-bit decomposition; the spec documents that both operands must fit the
declared width and that the field wraps otherwise. -/
def lessThanArg (a b : F) : F := a + 2 ^ 32 - b

/-- Modelled from the spec: satisfiability of the comparator gadget's internal
33-bit decomposition — the canonical representative of the argument wire must
fit in `32 + 1` bits for a satisfying assignment of the gadget to exist. -/
def lessThanOk (a b : F) : Prop := (lessThanArg a b).val < 2 ^ 33

instance (a b : F) : Decidable (lessThanOk a b) :=
  inferInstanceAs (Decidable ((lessThanArg a b).val < 2 ^ 33))

/-- Modelled from the spec: the comparator output signal, one minus the top bit
of the 33-bit decomposition of `in[0] + 2^32 - in[1]`. -/
def lessThanOut (a b : F) : F := 1 - (((lessThanArg a b).val / 2 ^ 32 : ℕ) : F)

/-- The twelve input signals of `PrescriptionValidation`: seven private inputs
followed by the five public inputs, with the names used in
`prescription.circom`. -/
structure Inputs where
  doctorId : F
  doctorSecret : F
  authorizedAction : F
  sourceId : F
  dataAge : F
  allergyClassId : F
  medicationClassId : F
  doctorCredentialHash : F
  trustedSourceHash : F
  requiredAction : F
  deltaMax : F
  outcome : F

/-- Internal signals of `PrescriptionValidation`, in declaration order.
`classDiffInv` is the prover-supplied hint (assigned with `<--`, so it is not
determined by a constraint); every other signal is assigned with `<==`. -/
structure Internals where
  freshOk : F
  authOk : F
  classDiff : F
  classDiffInv : F
  isZero : F
  noContraindication : F
  validCtx : F
  computedOutcome : F

/-- The constraint system of `PrescriptionValidation`, parameterised by the
two Poseidon instances (`h2` for `Poseidon(2)`, `h1` for `Poseidon(1)`), which
are external one-way commitment capabilities and therefore kept abstract.
Conjunct order follows the circuit: check 1 (credential hash), check 2
(trusted source hash), check 3 (`LessThan(32)` freshness), check 4
(authorization equality), check 5 (is-zero contraindication) and the final
outcome composition. -/
def Constraints (h2 : F → F → F) (h1 : F → F) (inp : Inputs) (w : Internals) : Prop :=
  h2 inp.doctorId inp.doctorSecret = inp.doctorCredentialHash ∧
  h1 inp.sourceId = inp.trustedSourceHash ∧
  lessThanOk inp.dataAge inp.deltaMax ∧
  w.freshOk = lessThanOut inp.dataAge inp.deltaMax ∧
  w.authOk = inp.authorizedAction - inp.requiredAction ∧
  w.authOk = 0 ∧
  w.classDiff = inp.allergyClassId - inp.medicationClassId ∧
  w.isZero = 1 - w.classDiff * w.classDiffInv ∧
  w.classDiff * w.isZero = 0 ∧
  w.noContraindication = 1 - w.isZero ∧
  w.validCtx = w.freshOk ∧
  w.computedOutcome = w.validCtx * w.noContraindication ∧
  w.computedOutcome = inp.outcome

instance (h2 : F → F → F) (h1 : F → F) (inp : Inputs) (w : Internals) :
    Decidable (Constraints h2 h1 inp w) := by
  unfold Constraints
  infer_instance

/-- A witness for the circuit exists: some assignment of the internal signals
(including the free hint `classDiffInv`) satisfies every constraint. -/
def Satisfies (h2 : F → F → F) (h1 : F → F) (inp : Inputs) : Prop :=
  ∃ w : Internals, Constraints h2 h1 inp w

/-- The ordered public input vector at the proof boundary, as fixed by the
`public` list of the `main` component:
`[doctorCredentialHash, trustedSourceHash, requiredAction, deltaMax, outcome]`. -/
structure PublicInputVector where
  credentialHash : F
  sourceHash : F
  requiredAction : F
  deltaMax : F
  outcome : F
deriving DecidableEq

/-- The public subset of a signal assignment, in wire order. -/
def publicVector (inp : Inputs) : PublicInputVector :=
  { credentialHash := inp.doctorCredentialHash
    sourceHash := inp.trustedSourceHash
    requiredAction := inp.requiredAction
    deltaMax := inp.deltaMax
    outcome := inp.outcome }

/-- Modelled from the spec: a proof emitted by the consumed Groth16 proving
oracle (snarkjs, external to this repository) is an opaque certificate
semantically bound to exactly one (verification key, public input vector)
pair; keys are opaque setup parameters, modelled as bare identifiers. -/
structure OProof where
  key : ℕ
  pub : PublicInputVector

/-- Modelled from the spec: the proving oracle, which binds the emitted proof
to the key it was produced under and to the public subset of the witness. -/
def prove (k : ℕ) (pub : PublicInputVector) : OProof := ⟨k, pub⟩

/-- Modelled from the spec: the verification oracle — a proof verifies against
exactly the (key, public input vector) pair it is bound to. -/
def verify (k : ℕ) (pub : PublicInputVector) (pr : OProof) : Bool :=
  decide (pr.key = k) && decide (pr.pub = pub)

/-- The algebraic is-zero gadget of check 5, over an arbitrary commutative
ring: the prover supplies a hint `dinv`, the output is `iz = 1 - d * dinv`,
and the enforcement constraint `d * iz = 0` is imposed. -/
def isZeroGadget {R : Type} [CommRing R] (d dinv iz : R) : Prop :=
  iz = 1 - d * dinv ∧ d * iz = 0

/-- The value check 5 computes for the honest hint
(`(classDiff == 0) ? 0 : (1 / classDiff)`): `noContraindication` is 0 when
the two class identifiers coincide and 1 otherwise. -/
def noContraOf (a m : F) : F := if a = m then 0 else 1

/-- Concrete stand-in for the consumed `Poseidon(2)` one-way commitment
capability, used only to instantiate theorems with abstract hash parameters
at concrete inputs. -/
def h2c : F → F → F := fun a b => 17 * a + b + 1

/-- Concrete stand-in for the consumed `Poseidon(1)` one-way commitment
capability. -/
def h1c : F → F := fun a => a * a + 3

/-- Inverse of `-3` in the BN128 scalar field, the honest hint for the class
difference `2 - 5` of the baseline scenario: `(-3) * cinv3 = 1`. -/
def cinv3 : F := 7296080957279758407415468581752425029516121466805344781232734728858602831872

/-- Scenario S2 instance: forged `doctorSecret = 999` against the public
commitment for `(123, 456)`; every other signal as in the baseline. -/
def c2Inp : Inputs :=
  { doctorId := 123, doctorSecret := 999, authorizedAction := 1, sourceId := 1,
    dataAge := 30, allergyClassId := 2, medicationClassId := 5,
    doctorCredentialHash := h2c 123 456, trustedSourceHash := h1c 1,
    requiredAction := 1, deltaMax := 90, outcome := 1 }

/-- Scenario S5a instance: contraindication (`allergyClassId =
medicationClassId = 2`) honestly declared as `outcome = 0`. -/
def c1Inp : Inputs :=
  { doctorId := 123, doctorSecret := 456, authorizedAction := 1, sourceId := 1,
    dataAge := 30, allergyClassId := 2, medicationClassId := 2,
    doctorCredentialHash := h2c 123 456, trustedSourceHash := h1c 1,
    requiredAction := 1, deltaMax := 90, outcome := 0 }

/-- Scenario S1 instance: the literal accepted baseline. -/
def c6Inp : Inputs :=
  { doctorId := 123, doctorSecret := 456, authorizedAction := 1, sourceId := 1,
    dataAge := 30, allergyClassId := 2, medicationClassId := 5,
    doctorCredentialHash := h2c 123 456, trustedSourceHash := h1c 1,
    requiredAction := 1, deltaMax := 90, outcome := 1 }

/-- Baseline scenario with a wrapped freshness operand: identical to the
accepted baseline except `dataAge = -1`, whose canonical representative is the
field order minus one — far outside the declared 32-bit width. -/
def c3Inp : Inputs :=
  { doctorId := 123, doctorSecret := 456, authorizedAction := 1, sourceId := 1,
    dataAge := -1, allergyClassId := 2, medicationClassId := 5,
    doctorCredentialHash := h2c 123 456, trustedSourceHash := h1c 1,
    requiredAction := 1, deltaMax := 90, outcome := 1 }

/-- In-range baseline instance used to exercise the amended freshness claim. -/
def c3aInp : Inputs :=
  { doctorId := 123, doctorSecret := 456, authorizedAction := 1, sourceId := 1,
    dataAge := 30, allergyClassId := 2, medicationClassId := 5,
    doctorCredentialHash := h2c 123 456, trustedSourceHash := h1c 1,
    requiredAction := 1, deltaMax := 90, outcome := 1 }

/-- Internal signal assignment for the in-range baseline instance. -/
def c3aW : Internals := ⟨1, 0, -3, cinv3, 0, 1, 1, 1⟩

/-- Valid public input vector of the baseline scenario, as reused by the two
binding probes S6 and S7. -/
def pv0 : PublicInputVector := ⟨h2c 123 456, h1c 1, 1, 90, 1⟩

/-- The S6 tampering of the baseline public input vector: the outcome
coordinate (the last element of the public signals array) flipped from 1
to 0. -/
def pv0flip : PublicInputVector := ⟨h2c 123 456, h1c 1, 1, 90, 0⟩

/-- One entry of the saved scenario report (one `report.push` of the
harness): scenario id, the expected (proof generated, verified) pair and the
observed pass/fail classification. -/
structure ScenarioReportEntry where
  id : String
  expectProof : Bool
  expectVerify : Bool
  result : Bool
deriving DecidableEq

/-- Outcomes the external pipeline hands the harness: for every scenario that
attempts witness construction, whether `fullProve` succeeded; for the two
end-to-end scenarios, what the verifier answered when invoked; and the
verifier answers of the two reuse probes. -/
structure PipelineEnv where
  s1Prove : Bool
  s1Verify : Bool
  s2Prove : Bool
  s3Prove : Bool
  s4Prove : Bool
  s5aProve : Bool
  s5aVerify : Bool
  s5bProve : Bool
  s6TamperedVerify : Bool
  s7BadKeyVerify : Bool

/-- The report list assembled by the harness main function: scenarios S1 to
S5b always push exactly one entry; S6 and S7 push an entry only when the S1
proof was cached (S1 constructed and verified) and are otherwise skipped with
no entry.  Each pushed `result` is the classification computed by the code:
`r.ok && verifyOk` for expected-pass scenarios, `r.ok === false` for
expected-fail scenarios, `verifyOk === false` for the reuse probes. -/
def scenarioReport (e : PipelineEnv) : List ScenarioReportEntry :=
  [⟨"S1", true, true, e.s1Prove && e.s1Verify⟩,
   ⟨"S2", false, false, !e.s2Prove⟩,
   ⟨"S3", false, false, !e.s3Prove⟩,
   ⟨"S4", false, false, !e.s4Prove⟩,
   ⟨"S5a", true, true, e.s5aProve && e.s5aVerify⟩,
   ⟨"S5b", false, false, !e.s5bProve⟩] ++
  (if e.s1Prove && e.s1Verify then
    [⟨"S6", true, false, !e.s6TamperedVerify⟩,
     ⟨"S7", true, false, !e.s7BadKeyVerify⟩]
  else [])

/-- Expected (proof generated, verified) pair per scenario id, as hard-coded
in the corresponding `report.push` calls of the harness. -/
def expectedPair : String → Bool × Bool
  | "S1" => (true, true)
  | "S5a" => (true, true)
  | "S6" => (true, false)
  | "S7" => (true, false)
  | _ => (false, false)

/-- Observed (proof generated, verified) pair per scenario id: expected-fail
scenarios never invoke the verifier (the harness hard-codes
`verifyOk = false` for them), the end-to-end scenarios report
`r.ok && verify`, and the reuse probes report the reused proof as generated. -/
def observedPair (e : PipelineEnv) : String → Bool × Bool
  | "S1" => (e.s1Prove, e.s1Prove && e.s1Verify)
  | "S2" => (e.s2Prove, false)
  | "S3" => (e.s3Prove, false)
  | "S4" => (e.s4Prove, false)
  | "S5a" => (e.s5aProve, e.s5aProve && e.s5aVerify)
  | "S5b" => (e.s5bProve, false)
  | "S6" => (true, e.s6TamperedVerify)
  | "S7" => (true, e.s7BadKeyVerify)
  | _ => (false, false)

/-- Pipeline outcomes in which the S1 proof is unavailable (witness
construction failed) while every other pipeline call succeeds. -/
def env0 : PipelineEnv :=
  ⟨false, true, true, true, true, true, true, true, true, true⟩

/-- Outcome of STEP 1 of the trusted-setup ceremony script: either control
falls through to STEP 2 (key generation), or the run saves the ceremony log
and terminates with `process.exit(1)`. -/
inductive Step1Outcome
  | proceed
  | abortExit1
deriving DecidableEq

/-- STEP 1 control flow of `ceremony.js`: run the circuit compiler; when it
throws, log its stdout and stderr, and only when `build/prescription.r1cs`
does not exist afterwards, log the error, save the log and exit with status
1; in every other case fall through to the downstream steps. -/
def ceremonyStep1 (compileOk r1csExists : Bool) : Step1Outcome :=
  if compileOk then Step1Outcome.proceed
  else if r1csExists then Step1Outcome.proceed
  else Step1Outcome.abortExit1

/-- Result classification of `tryProve` in the harness: the surrounding
`try`/`catch` maps a successful `fullProve` to `ok = true` and any thrown
exception whatsoever to `ok = false`, recording only the message. -/
def tryProveOk (r : Except String Unit) : Bool :=
  match r with
  | Except.ok _ => true
  | Except.error _ => false

/-- Classification of an expected-failure scenario (S2, S3, S4, S5b): the
scenario counts as a pass exactly when `r.ok === false`; the caught error is
never inspected. -/
def expectFailPass (r : Except String Unit) : Bool := !tryProveOk r

/-- The modulus is comfortably larger than the comparator range. -/
lemma bn128r_big : 2 ^ 33 < bn128r := by norm_num

lemma natCast_val_self (a : F) : ((a.val : ℕ) : F) = a :=
  ZMod.natCast_rightInverse a

/-- When both operands are 32-bit representable, the comparator argument wire
does not wrap: its representative is the integer `a + 2^32 - b`. -/
lemma lessThanArg_val (a b : F) (ha : a.val < 2 ^ 32) (hb : b.val < 2 ^ 32) :
    (lessThanArg a b).val = a.val + 2 ^ 32 - b.val := by
  have hble : b.val ≤ a.val + 2 ^ 32 := by omega
  have hcast : lessThanArg a b = ((a.val + 2 ^ 32 - b.val : ℕ) : F) := by
    rw [Nat.cast_sub hble, Nat.cast_add, natCast_val_self, natCast_val_self]
    unfold lessThanArg
    push_cast
    ring
  rw [hcast, ZMod.val_cast_of_lt]
  have := bn128r_big
  omega

/-- In-range operands always admit a satisfying 33-bit decomposition. -/
lemma lessThanOk_of_range (a b : F) (ha : a.val < 2 ^ 32) (hb : b.val < 2 ^ 32) :
    lessThanOk a b := by
  unfold lessThanOk
  rw [lessThanArg_val a b ha hb]
  omega

/-- In-range operands make the comparator output the strict less-than bit. -/
lemma lessThanOut_of_range (a b : F) (ha : a.val < 2 ^ 32) (hb : b.val < 2 ^ 32) :
    lessThanOut a b = if a.val < b.val then 1 else 0 := by
  unfold lessThanOut
  rw [lessThanArg_val a b ha hb]
  rcases lt_or_ge a.val b.val with h | h
  · have hq : (a.val + 2 ^ 32 - b.val) / 2 ^ 32 = 0 := by omega
    rw [hq, if_pos h]
    norm_num
  · have hq : (a.val + 2 ^ 32 - b.val) / 2 ^ 32 = 1 := by omega
    rw [hq, if_neg (not_lt.mpr h)]
    norm_num

/-- An observed pass/verify pair of a fully run scenario matches the
expectation (true, true) exactly when the conjunction computed by the harness
holds. -/
lemma boolObs1 (a b : Bool) :
    (a && b) = decide (((a, a && b) : Bool × Bool) = (true, true)) := by
  cases a <;> cases b <;> rfl

/-- An observed pair of an expected-failure scenario (verification
hard-coded to false) matches (false, false) exactly when proving failed. -/
lemma boolObs2 (a : Bool) :
    (!a) = decide (((a, false) : Bool × Bool) = (false, false)) := by
  cases a <;> rfl

/-- An observed pair of a reuse probe matches (true, false) exactly when the
verifier rejected. -/
lemma boolObs3 (t : Bool) :
    (!t) = decide (((true, t) : Bool × Bool) = (true, false)) := by
  cases t <;> rfl

/-- Claim C1: outcome integrity with honest reject — when the hard checks are
satisfied, the freshness operands are in range, and the two class identifiers
coincide, a satisfying witness exists exactly when the declared outcome is 0,
and the honestly rejected statement proves and verifies. -/
theorem c1_outcome_integrity (h2 : F → F → F) (h1 : F → F) (inp : Inputs)
    (hcred : h2 inp.doctorId inp.doctorSecret = inp.doctorCredentialHash)
    (hsrc : h1 inp.sourceId = inp.trustedSourceHash)
    (hauth : inp.authorizedAction = inp.requiredAction)
    (hda : inp.dataAge.val < 2 ^ 32) (hdm : inp.deltaMax.val < 2 ^ 32)
    (hclass : inp.allergyClassId = inp.medicationClassId) :
    (Satisfies h2 h1 inp ↔ inp.outcome = 0) ∧
      ∀ k : ℕ, verify k (publicVector inp) (prove k (publicVector inp)) = true := by
  constructor
  · constructor
    · rintro ⟨w, -, -, -, -, -, -, hdiff, hiz, -, hnc, -, hco, hout2⟩
      have hd0 : w.classDiff = 0 := by rw [hdiff, hclass, sub_self]
      have hiz1 : w.isZero = 1 := by rw [hiz, hd0]; ring
      have hnc0 : w.noContraindication = 0 := by rw [hnc, hiz1]; ring
      rw [← hout2, hco, hnc0, mul_zero]
    · intro hout
      refine ⟨⟨lessThanOut inp.dataAge inp.deltaMax, 0, 0, 0, 1, 0,
        lessThanOut inp.dataAge inp.deltaMax, 0⟩,
        hcred, hsrc, lessThanOk_of_range _ _ hda hdm, rfl,
        (sub_eq_zero.mpr hauth).symm, rfl, (sub_eq_zero.mpr hclass).symm,
        by ring, by ring, by ring, rfl, by ring, hout.symm⟩
  · intro k
    simp [verify, prove]

/-- Witness for C1 at the scenario S5a literals: contraindicated classes with
declared outcome 0 admit a witness, and the bound proof verifies. -/
theorem c1_witness :
    ((30 : F).val < 2 ^ 32 ∧ (90 : F).val < 2 ^ 32) ∧
      (Satisfies h2c h1c c1Inp ↔ c1Inp.outcome = 0) ∧
      ∀ k : ℕ, verify k (publicVector c1Inp) (prove k (publicVector c1Inp)) = true :=
  ⟨⟨by decide, by decide⟩,
    c1_outcome_integrity h2c h1c c1Inp rfl rfl rfl (by decide) (by decide) rfl⟩

/-- Claim C2: hard-check soundness — whenever the credential commitment, the
source commitment or the action equality fails, no satisfying witness exists,
whatever the declared outcome is. -/
theorem c2_hard_check_soundness (h2 : F → F → F) (h1 : F → F) (inp : Inputs)
    (hbad : h2 inp.doctorId inp.doctorSecret ≠ inp.doctorCredentialHash ∨
      h1 inp.sourceId ≠ inp.trustedSourceHash ∨
      inp.authorizedAction ≠ inp.requiredAction) :
    ¬ Satisfies h2 h1 inp := by
  rintro ⟨w, hc⟩
  obtain ⟨hcred, hsrc, -, -, hauth1, hauth2, -⟩ := hc
  rcases hbad with h | h | h
  · exact h hcred
  · exact h hsrc
  · refine h (sub_eq_zero.mp ?_)
    rw [← hauth1]
    exact hauth2

/-- Witness for C2: on the scenario S2 instance the credential commitment
mismatches and no satisfying witness exists. -/
theorem c2_witness :
    h2c c2Inp.doctorId c2Inp.doctorSecret ≠ c2Inp.doctorCredentialHash ∧
      ¬ Satisfies h2c h1c c2Inp :=
  ⟨by decide, c2_hard_check_soundness h2c h1c c2Inp (Or.inl (by decide))⟩

/-- Counterexample to claim C3: the comparator gadget does not range check its
operands — the full constraint system has a satisfying assignment in which
`dataAge` is the field order minus one (canonical representative at least
`2^32`), yet the accepted outcome is 1 although `deltaMax < dataAge` holds on
representatives. -/
theorem c3_counterexample_thm :
    Satisfies h2c h1c c3Inp ∧ 2 ^ 32 ≤ c3Inp.dataAge.val ∧
      c3Inp.deltaMax.val < c3Inp.dataAge.val :=
  ⟨⟨⟨1, 0, -3, cinv3, 0, 1, 1, 1⟩, by decide⟩, by decide, by decide⟩

/-- Claim C3 as amended: the comparator does not itself range check its
operands (see the counterexample); the freshness signal of a satisfying
assignment is the correct strict less-than result whenever both operands are
32-bit representable, i.e. under the externally assumed range precondition. -/
theorem c3_amended_thm (h2 : F → F → F) (h1 : F → F) (inp : Inputs) (w : Internals)
    (hc : Constraints h2 h1 inp w)
    (hda : inp.dataAge.val < 2 ^ 32) (hdm : inp.deltaMax.val < 2 ^ 32) :
    w.freshOk = if inp.dataAge.val < inp.deltaMax.val then 1 else 0 := by
  obtain ⟨-, -, -, hfresh, -⟩ := hc
  rw [hfresh, lessThanOut_of_range _ _ hda hdm]

/-- Witness for the amended C3 at the in-range baseline: the satisfying
assignment carries `freshOk = 1` because `30 < 90`. -/
theorem c3_amended_witness :
    (Constraints h2c h1c c3aInp c3aW ∧ c3aInp.dataAge.val < 2 ^ 32 ∧
      c3aInp.deltaMax.val < 2 ^ 32) ∧
      c3aW.freshOk = if c3aInp.dataAge.val < c3aInp.deltaMax.val then 1 else 0 :=
  ⟨⟨by decide, by decide, by decide⟩,
    c3_amended_thm h2c h1c c3aInp c3aW (by decide) (by decide) (by decide)⟩

/-- Claim C4: is-zero gadget correctness under an adversarial hint — over any
ring without zero divisors, a satisfying assignment of the gadget has output 1
whenever the input is zero (for any hint), and output 0 whenever the input is
nonzero (no hint can make it nonzero). -/
theorem c4_iszero_sound {R : Type} [CommRing R] [NoZeroDivisors R]
    (d dinv iz : R) (h : isZeroGadget d dinv iz) :
    (d = 0 → iz = 1) ∧ (d ≠ 0 → iz = 0) := by
  obtain ⟨hdef, henf⟩ := h
  constructor
  · intro hd
    rw [hdef, hd]
    ring
  · intro hd
    rcases mul_eq_zero.mp henf with h0 | h0
    · exact absurd h0 hd
    · exact h0

/-- Witness for C4 at a concrete instance: over the field with five elements,
the gadget assignment `d = 2`, `dinv = 3`, `iz = 0` satisfies both
constraints, and the theorem yields the forced output 0. -/
theorem c4_witness : isZeroGadget (2 : ZMod 5) 3 0 ∧ (0 : ZMod 5) = 0 := by
  have hg : isZeroGadget (2 : ZMod 5) 3 0 := ⟨by decide, by decide⟩
  have hne : (2 : ZMod 5) ≠ 0 := by decide
  haveI : Fact (Nat.Prime 5) := ⟨by norm_num⟩
  exact ⟨hg, (c4_iszero_sound (2 : ZMod 5) 3 0 hg).2 hne⟩

/-- Claim C5: the freshness boundary is a strict inequality — for operands
representable in 32 bits the comparator gadget is satisfiable and its output
is 1 exactly when `dataAge < deltaMax` (so `dataAge = deltaMax - 1` is fresh,
`dataAge = deltaMax` is not, and `dataAge > deltaMax` is not). -/
theorem c5_freshness_strict (a b : F) (ha : a.val < 2 ^ 32) (hb : b.val < 2 ^ 32) :
    lessThanOk a b ∧ lessThanOut a b = if a.val < b.val then 1 else 0 :=
  ⟨lessThanOk_of_range a b ha hb, lessThanOut_of_range a b ha hb⟩

/-- Witness for C5 at the boundary `dataAge = deltaMax - 1 = 89`,
`deltaMax = 90`: the comparator is satisfiable and outputs 1. -/
theorem c5_witness :
    ((89 : F).val < 2 ^ 32 ∧ (90 : F).val < 2 ^ 32) ∧
      (lessThanOk 89 90 ∧
        lessThanOut 89 90 = if (89 : F).val < (90 : F).val then 1 else 0) :=
  ⟨⟨by decide, by decide⟩, c5_freshness_strict 89 90 (by decide) (by decide)⟩

/-- Claim C6: completeness — matching commitments and action, in-range
freshness operands, and a declared outcome equal to the conjunction computed
by checks 3 and 5 yield a satisfying witness whose bound proof verifies.  The
disjunctive hypothesis supplies the honest hint for check 5: either the class
identifiers coincide or their difference is invertible (over the prime-order
scalar field every nonzero difference is). -/
theorem c6_completeness (h2 : F → F → F) (h1 : F → F) (inp : Inputs)
    (hcred : h2 inp.doctorId inp.doctorSecret = inp.doctorCredentialHash)
    (hsrc : h1 inp.sourceId = inp.trustedSourceHash)
    (hauth : inp.authorizedAction = inp.requiredAction)
    (hda : inp.dataAge.val < 2 ^ 32) (hdm : inp.deltaMax.val < 2 ^ 32)
    (hsplit : inp.allergyClassId = inp.medicationClassId ∨
      IsUnit (inp.allergyClassId - inp.medicationClassId))
    (hout : inp.outcome = lessThanOut inp.dataAge inp.deltaMax *
      noContraOf inp.allergyClassId inp.medicationClassId) :
    Satisfies h2 h1 inp ∧
      ∀ k : ℕ, verify k (publicVector inp) (prove k (publicVector inp)) = true := by
  constructor
  · rcases hsplit with heq | hu
    · refine ⟨⟨lessThanOut inp.dataAge inp.deltaMax, 0, 0, 0, 1, 0,
        lessThanOut inp.dataAge inp.deltaMax, 0⟩,
        hcred, hsrc, lessThanOk_of_range _ _ hda hdm, rfl,
        (sub_eq_zero.mpr hauth).symm, rfl, (sub_eq_zero.mpr heq).symm,
        by ring, by ring, by ring, rfl, by ring, ?_⟩
      rw [hout]
      unfold noContraOf
      rw [if_pos heq, mul_zero]
    · obtain ⟨v, hv⟩ := hu.exists_right_inv
      have hne : inp.allergyClassId ≠ inp.medicationClassId :=
        fun he => hu.ne_zero (sub_eq_zero.mpr he)
      refine ⟨⟨lessThanOut inp.dataAge inp.deltaMax, 0,
        inp.allergyClassId - inp.medicationClassId, v, 0, 1,
        lessThanOut inp.dataAge inp.deltaMax,
        lessThanOut inp.dataAge inp.deltaMax⟩,
        hcred, hsrc, lessThanOk_of_range _ _ hda hdm, rfl,
        (sub_eq_zero.mpr hauth).symm, rfl, rfl,
        by rw [hv]; norm_num, by ring, by norm_num, rfl,
        (mul_one _).symm, ?_⟩
      rw [hout]
      unfold noContraOf
      rw [if_neg hne, mul_one]
  · intro k
    simp [verify, prove]

/-- Witness for C6 at the literal S1 baseline (`doctorId = 123`,
`doctorSecret = 456`, `sourceId = 1`, `dataAge = 30`, `deltaMax = 90`,
`allergyClassId = 2`, `medicationClassId = 5`, `outcome = 1` with matching
commitments): construction succeeds and the bound proof verifies. -/
theorem c6_witness :
    ((30 : F).val < 2 ^ 32 ∧ (90 : F).val < 2 ^ 32 ∧
      c6Inp.outcome = lessThanOut c6Inp.dataAge c6Inp.deltaMax *
        noContraOf c6Inp.allergyClassId c6Inp.medicationClassId) ∧
      Satisfies h2c h1c c6Inp ∧
      ∀ k : ℕ, verify k (publicVector c6Inp) (prove k (publicVector c6Inp)) = true := by
  have hu : IsUnit (c6Inp.allergyClassId - c6Inp.medicationClassId) :=
    ⟨⟨c6Inp.allergyClassId - c6Inp.medicationClassId, cinv3, by decide, by decide⟩, rfl⟩
  exact ⟨⟨by decide, by decide, by decide⟩,
    c6_completeness h2c h1c c6Inp rfl rfl rfl (by decide) (by decide)
      (Or.inr hu) (by decide)⟩

/-- Claim C7: proof binding — a proof that verifies against a key and public
input vector fails verification after any mutation of the public input vector
and fails verification against any altered key. -/
theorem c7_binding (k kBad : ℕ) (pv pvBad : PublicInputVector) (pr : OProof)
    (hv : verify k pv pr = true) :
    (pvBad ≠ pv → verify k pvBad pr = false) ∧
      (kBad ≠ k → verify kBad pv pr = false) := by
  have hparts : pr.key = k ∧ pr.pub = pv := by
    simpa [verify] using hv
  constructor
  · intro hne
    have hpub : pr.pub ≠ pvBad := by
      rw [hparts.2]
      exact fun h => hne h.symm
    simp [verify, hpub]
  · intro hne
    have hkey : pr.key ≠ kBad := by
      rw [hparts.1]
      exact fun h => hne h.symm
    simp [verify, hkey]

/-- Witness for C7 at the S6/S7 probes: the baseline proof verifies, flipping
the outcome coordinate makes verification fail, and an altered key makes
verification fail. -/
theorem c7_witness :
    verify 0 pv0 (prove 0 pv0) = true ∧
      verify 0 pv0flip (prove 0 pv0) = false ∧
      verify 1 pv0 (prove 0 pv0) = false := by
  have h := c7_binding 0 1 pv0 pv0flip (prove 0 pv0) (by decide)
  exact ⟨by decide, h.1 (by decide), h.2 (by decide)⟩

/-- Counterexample to claim C8: when the compiler invocation throws but a
(possibly stale) `build/prescription.r1cs` exists, the ceremony run does not
abort — it proceeds to the downstream steps despite the compilation failure. -/
theorem c8_counterexample_thm :
    ceremonyStep1 false true = Step1Outcome.proceed := rfl

/-- Claim C8 as amended: the ceremony aborts (saves the log, exits with
status 1, and reaches no downstream step) exactly when compilation fails and
`build/prescription.r1cs` does not exist; a compilation failure with a
pre-existing r1cs artifact is logged but execution proceeds. -/
theorem c8_amended_thm (compileOk r1csExists : Bool) :
    ceremonyStep1 compileOk r1csExists = Step1Outcome.abortExit1 ↔
      compileOk = false ∧ r1csExists = false := by
  cases compileOk <;> cases r1csExists <;> decide

/-- Counterexample to claim C9: when the S1 proof is unavailable, the two
binding probes S6 and S7 are skipped and append no report entry at all — the
saved report has six entries and none named S6 or S7. -/
theorem c9_counterexample_thm :
    (scenarioReport env0).length = 6 ∧
      ∀ x ∈ scenarioReport env0, x.id ≠ "S6" ∧ x.id ≠ "S7" := by
  decide

/-- Claim C9 as amended: every scenario the harness actually executes appends
exactly one report entry — S6 and S7 only when the S1 proof was produced and
verified, and in that case the report lists all eight scenarios in order —
and each entry's result is the success classification, true exactly when the
observed (constructed, verified) pair equals the declared expectation. -/
theorem c9_amended_thm (e : PipelineEnv) :
    ((scenarioReport e).map ScenarioReportEntry.id =
      if e.s1Prove && e.s1Verify then
        ["S1", "S2", "S3", "S4", "S5a", "S5b", "S6", "S7"]
      else ["S1", "S2", "S3", "S4", "S5a", "S5b"]) ∧
    ∀ x ∈ scenarioReport e,
      (x.expectProof, x.expectVerify) = expectedPair x.id ∧
      x.result = decide (observedPair e x.id = expectedPair x.id) := by
  obtain ⟨p1, v1, p2, p3, p4, p5, v5, p6, t6, t7⟩ := e
  cases p1 <;> cases v1
  case false.false =>
    refine ⟨by simp [scenarioReport], ?_⟩
    intro x hx
    simp only [scenarioReport, Bool.false_and, Bool.false_eq_true, if_false,
      List.append_nil, List.mem_cons, List.not_mem_nil, or_false] at hx
    rcases hx with rfl | rfl | rfl | rfl | rfl | rfl
    · exact ⟨rfl, rfl⟩
    · exact ⟨rfl, boolObs2 p2⟩
    · exact ⟨rfl, boolObs2 p3⟩
    · exact ⟨rfl, boolObs2 p4⟩
    · exact ⟨rfl, boolObs1 p5 v5⟩
    · exact ⟨rfl, boolObs2 p6⟩
  case false.true =>
    refine ⟨by simp [scenarioReport], ?_⟩
    intro x hx
    simp only [scenarioReport, Bool.false_and, Bool.false_eq_true, if_false,
      List.append_nil, List.mem_cons, List.not_mem_nil, or_false] at hx
    rcases hx with rfl | rfl | rfl | rfl | rfl | rfl
    · exact ⟨rfl, rfl⟩
    · exact ⟨rfl, boolObs2 p2⟩
    · exact ⟨rfl, boolObs2 p3⟩
    · exact ⟨rfl, boolObs2 p4⟩
    · exact ⟨rfl, boolObs1 p5 v5⟩
    · exact ⟨rfl, boolObs2 p6⟩
  case true.false =>
    refine ⟨by simp [scenarioReport], ?_⟩
    intro x hx
    simp only [scenarioReport, Bool.true_and, Bool.false_eq_true, if_false,
      List.append_nil, List.mem_cons, List.not_mem_nil, or_false] at hx
    rcases hx with rfl | rfl | rfl | rfl | rfl | rfl
    · exact ⟨rfl, rfl⟩
    · exact ⟨rfl, boolObs2 p2⟩
    · exact ⟨rfl, boolObs2 p3⟩
    · exact ⟨rfl, boolObs2 p4⟩
    · exact ⟨rfl, boolObs1 p5 v5⟩
    · exact ⟨rfl, boolObs2 p6⟩
  case true.true =>
    refine ⟨by simp [scenarioReport], ?_⟩
    intro x hx
    simp only [scenarioReport, Bool.true_and, if_true, List.mem_append,
      List.mem_cons, List.not_mem_nil, or_false] at hx
    rcases hx with (rfl | rfl | rfl | rfl | rfl | rfl) | (rfl | rfl)
    · exact ⟨rfl, rfl⟩
    · exact ⟨rfl, boolObs2 p2⟩
    · exact ⟨rfl, boolObs2 p3⟩
    · exact ⟨rfl, boolObs2 p4⟩
    · exact ⟨rfl, boolObs1 p5 v5⟩
    · exact ⟨rfl, boolObs2 p6⟩
    · exact ⟨rfl, boolObs3 t6⟩
    · exact ⟨rfl, boolObs3 t7⟩

/-- Claim C10: an expected-failure scenario counts as a pass for every thrown
exception whatsoever — the classification never inspects which error
occurred, so an unrelated failure (for example a missing wasm or zkey file)
also passes. -/
theorem c10_any_exception_passes (msg : String) :
    expectFailPass (Except.error msg) = true := rfl
